import Mathlib

/-!
Verification of the code-analysis agent runtime (src/agent): a shallow
embedding of its checkpoint store, policy manager, guardrails, tool invoker,
MCP client manager, planner/executor/reviewer agents and orchestrator loop,
together with theorems settling the specification claims about them.

Conventions of the embedding:
* Python dict/JSON payloads are modelled by the inductive `Json` below
  (integers stand in for JSON numbers; the claims never exercise floats).
* Mutable objects are modelled by explicit state passing: a method that
  mutates `self` and may raise becomes a function returning the new state
  together with an `Except` result.
* Wall-clock / monotonic-clock readings, model-backend responses and
  network transport outcomes are inputs (oracles) to the functions that
  consume them, since the Python code obtains them from the environment.
-/

set_option maxRecDepth 10000

namespace AgentSpec

/-- JSON values, as produced by `json.loads` / consumed by `json.dumps`.
Numbers are modelled as integers (no claim exercises fractional values). -/
inductive Json where
  | null : Json
  | bool (b : Bool) : Json
  | num (n : Int) : Json
  | str (s : String) : Json
  | arr (elements : List Json) : Json
  | obj (fields : List (String × Json)) : Json

/-! ## CheckpointStore (state.py)

`CheckpointStore.save` writes `<stage>.json` under the run directory and
`CheckpointStore.load` reads it back, returning `None` when the file is
absent.  The run directory is modelled as an association list from stage
name to the stored JSON document; `save` replaces the single file for that
stage (file write = overwrite), `load` looks the stage up.  The
`json.dumps`/`json.loads` serialization boundary is the identity on the
`Json` model. -/

/-- The checkpoint directory of one run: one stored JSON document per stage
file. -/
def CheckpointDir : Type := List (String × Json)

/-- `CheckpointStore.save(stage, data)`: (over)write the single file
`<stage>.json`. -/
def CheckpointStore.save (dir : CheckpointDir) (stage : String) (data : Json) :
    CheckpointDir :=
  (stage, data) :: (dir.filter (fun entry => entry.1 ≠ stage))

/-- `CheckpointStore.load(stage)`: read `<stage>.json` if it exists, else
`None`. -/
def CheckpointStore.load (dir : CheckpointDir) (stage : String) : Option Json :=
  (dir.find? (fun entry => entry.1 = stage)).map (fun entry => entry.2)

/-- A fresh checkpoint directory (no stage ever saved). -/
def CheckpointStore.emptyDir : CheckpointDir := []

/-! ## PolicyManager (policies.py') -/

/-- The `tools.yaml` policy document, restricted to the fields
`PolicyManager` reads: `budgets.max_tool_calls`, `defaults.max_tool_calls`
and `agents.executor.allowed_tools`.  `none` models an absent key; a stored
`0` is distinct from absence because Python's `or` and `if limit` treat
both as falsy, which the definitions below reproduce. -/
structure ToolsPolicy where
  budgetsMaxToolCalls : Option Nat := none
  defaultsMaxToolCalls : Option Nat := none
  executorAllowedTools : List String := []
deriving DecidableEq, Repr

/-- Python `a or b` on optional numeric policy values: `a` unless it is
`None` or `0`. -/
def pyOrNum (a b : Option Nat) : Option Nat :=
  match a with
  | some n => if n = 0 then b else some n
  | none => b

/-- `PolicyManager._budget("max_tool_calls")`:
`budgets.get(key) or defaults.get(key)`. -/
def budgetMaxToolCalls (p : ToolsPolicy) : Option Nat :=
  pyOrNum p.budgetsMaxToolCalls p.defaultsMaxToolCalls

/-- `PolicyViolation` exception payloads raised by `authorize_tool`. -/
inductive PolicyViolation where
  | budgetExceeded (calls limit : Nat) (tool : String) : PolicyViolation
  | toolNotPermitted (tool : String) : PolicyViolation
deriving DecidableEq, Repr

/-- Mutable state of a `PolicyManager`: the loaded `tools.yaml` document and
the per-run budget counters (`_tool_calls`, `_token_usage`). -/
structure PolicyState where
  toolsPolicy : ToolsPolicy
  toolCalls : Nat
  tokenUsage : Nat
deriving DecidableEq, Repr

/-- `PolicyManager.authorize_tool(tool_name)`: increment `_tool_calls`,
then fail if a truthy `max_tool_calls` budget is exceeded or the executor
allowlist is non-empty and excludes the tool.  The incremented counter is
kept in the returned state on every path, matching the Python field update
performed before either check. -/
def authorize_tool (s : PolicyState) (toolName : String) :
    Except PolicyViolation Unit × PolicyState :=
  let calls := s.toolCalls + 1
  let s' : PolicyState := { s with toolCalls := calls }
  let allowed := s.toolsPolicy.executorAllowedTools
  let allowRes : Except PolicyViolation Unit :=
    if allowed ≠ [] ∧ ¬ allowed.contains toolName then
      .error (.toolNotPermitted toolName)
    else .ok ()
  let res : Except PolicyViolation Unit :=
    match budgetMaxToolCalls s.toolsPolicy with
    | some limit =>
      if limit ≠ 0 ∧ calls > limit then
        .error (.budgetExceeded calls limit toolName)
      else allowRes
    | none => allowRes
  (res, s')

/-- `PolicyManager.reload()`: replace the policy documents with the ones
re-read from disk (passed in, since file contents are an input) and reset
both budget counters to zero. -/
def PolicyState.reload (_s : PolicyState) (newTools : ToolsPolicy) : PolicyState :=
  { toolsPolicy := newTools, toolCalls := 0, tokenUsage := 0 }

/-! ## Guardrails (guardrails.py) -/

/-- Python whitespace, as recognised by `str.split()` and `str.strip()`
on ASCII text: space, tab, newline, carriage return, vertical tab, form
feed. -/
def isPyWs (c : Char) : Bool :=
  c = ' ' || c = '\t' || c = '\n' || c = '\r' || c = '\x0B' || c = '\x0C'

/-- Worker for `pySplit`: accumulate the current word (reversed) while
scanning. -/
def pySplitAux : List Char → List Char → List String
  | [], acc => if acc = [] then [] else [String.mk acc.reverse]
  | c :: rest, acc =>
    if isPyWs c then
      if acc = [] then pySplitAux rest []
      else String.mk acc.reverse :: pySplitAux rest []
    else pySplitAux rest (c :: acc)

/-- Python `str.split()` with no argument: split on runs of whitespace,
discarding empty fragments. -/
def pySplit (s : String) : List String :=
  pySplitAux s.toList []

/-- `Guardrails._command_allowed(cmd_list)`: first a whitespace-tokenized
prefix match of each allowed entry against the command, then the fallback
that accepts the command whenever its first token equals the first token of
any allowed entry.  (Python indexes `entry.split()[0]` for truthy entries;
`head?` models this totally — the claims never pass whitespace-only
entries, the only case where the Python expression would throw.) -/
def command_allowed (allowedEntries : List String) (cmdList : List String) : Bool :=
  let entryMatches := fun (entry : String) =>
    let tokens := pySplit entry
    decide (tokens ≠ []) && decide (cmdList.take tokens.length = tokens)
  if allowedEntries.any entryMatches then true
  else
    let singleTokens :=
      (allowedEntries.filter (fun e => e ≠ "")).filterMap (fun e => (pySplit e).head?)
    singleTokens.contains (cmdList.headD "")

/-- `GuardrailViolation` exception payloads raised by `check_command`. -/
inductive GuardrailViolation where
  | emptyCommand : GuardrailViolation
  | commandNotAllowed (bin : String) : GuardrailViolation
  | networkBlocked : GuardrailViolation
deriving DecidableEq, Repr

/-- `Guardrails.check_command(command)`: empty commands fail, then
`_command_allowed` is consulted with `policies.allowed_commands()`, then
with networking disallowed any token starting with "http" fails. -/
def check_command (allowedEntries : List String) (allowNet : Bool)
    (command : List String) : Except GuardrailViolation Unit :=
  if command = [] then .error .emptyCommand
  else if ¬ command_allowed allowedEntries command then
    .error (.commandNotAllowed (command.headD ""))
  else if ¬ allowNet ∧ command.any (fun token => token.startsWith "http") then
    .error .networkBlocked
  else .ok ()

/-! ## StateManager slice used by the tool invoker (state.py) -/

/-- One audit-log record.  `append_event(kind, payload)` writes
`{ts, kind, payload}`; the ISO timestamp is an environment reading that no
claim inspects, so only kind and payload are carried. -/
structure AuditEvent where
  kind : String
  payload : Json

/-- One per-tool entry of `metrics.json` (`tools.<name>`): call count,
error count and cumulative latency.  Latency is measured in abstract clock
ticks (the Python code uses `perf_counter` float seconds). -/
structure ToolMetric where
  calls : Nat := 0
  errors : Nat := 0
  totalLatency : Nat := 0
deriving DecidableEq, Repr

/-- The slice of `StateManager`/`MetricsRecorder` state that
`ToolInvoker.invoke` touches: the audit log, the global `events` counter
(bumped by every `append_event`), the per-tool metrics table and the
global `errors.tool` counter (bumped by every failed tool metric). -/
structure StateSlice where
  events : List AuditEvent
  eventCount : Nat
  toolMetrics : List (String × ToolMetric)
  toolErrorCount : Nat

/-- A fresh state: empty audit log, zeroed metrics. -/
def StateSlice.empty : StateSlice := ⟨[], 0, [], 0⟩

/-- `StateManager.append_event(kind, payload)`: append one line to the
audit log and increment the global event counter. -/
def append_event (st : StateSlice) (kind : String) (payload : Json) :
    StateSlice :=
  { st with
    events := st.events ++ [⟨kind, payload⟩]
    eventCount := st.eventCount + 1 }

/-- `StateManager.record_tool_metric` → `MetricsRecorder.record_tool`:
upsert the tool's entry (calls+1, latency accumulated, errors+1 on
failure) and bump the global `errors.tool` counter on failure.  The
Python dict is modelled as an association list keyed by tool name. -/
def record_tool_metric (st : StateSlice) (name : String) (duration : Nat)
    (success : Bool) : StateSlice :=
  let old := ((st.toolMetrics.find? (fun e => e.1 = name)).map
    (fun e => e.2)).getD {}
  let entry : ToolMetric :=
    { calls := old.calls + 1
      totalLatency := old.totalLatency + duration
      errors := if success then old.errors else old.errors + 1 }
  { st with
    toolMetrics := (name, entry) :: st.toolMetrics.filter (fun e => e.1 ≠ name)
    toolErrorCount :=
      if success then st.toolErrorCount else st.toolErrorCount + 1 }

/-! ## ToolInvoker (tools/invoker.py) -/

/-- Outcome of `self.registry.create(tool_name)` followed by
`tool.run(payload)`, supplied as an oracle: a successful
`ToolResult.model_dump()`, a raised `ToolError`, or a `PolicyViolation`
raised inside the `try` block. -/
inductive ToolRunOutcome where
  | ok (resultDump : Json) : ToolRunOutcome
  | toolError (msg : String) : ToolRunOutcome
  | policyViolation (msg : String) : ToolRunOutcome

/-- Exceptions propagating out of `ToolInvoker.invoke`. -/
inductive InvokeError where
  | policy (v : PolicyViolation) : InvokeError
  | tool (msg : String) : InvokeError
  | policyInRun (msg : String) : InvokeError

/-- `ToolInvoker.invoke(tool_name, payload)`: emits the start event, then
calls `authorize_tool` — in the source this call sits *before* the
`try`/`except` block, so a `PolicyViolation` it raises propagates without
any further event or metric — then runs the tool, emitting
complete/error/policy_violation events and recording a metric for the
outcomes produced inside the `try` block. -/
def ToolInvoker.invoke (ps : PolicyState) (st : StateSlice)
    (toolName : String) (payload : Json) (outcome : ToolRunOutcome)
    (duration : Nat) : Except InvokeError Json × PolicyState × StateSlice :=
  let st0 := append_event st "tool_invocation_start"
    (.obj [("tool", .str toolName), ("payload", payload)])
  match authorize_tool ps toolName with
  | (.error v, ps') => (.error (.policy v), ps', st0)
  | (.ok _, ps') =>
    match outcome with
    | .toolError msg =>
      let st1 := append_event st0 "tool_invocation_error"
        (.obj [("tool", .str toolName), ("error", .str msg)])
      let st2 := record_tool_metric st1 toolName duration false
      (.error (.tool msg), ps', st2)
    | .policyViolation msg =>
      let st1 := append_event st0 "policy_violation"
        (.obj [("tool", .str toolName), ("error", .str msg)])
      let st2 := record_tool_metric st1 toolName duration false
      (.error (.policyInRun msg), ps', st2)
    | .ok resultDump =>
      let st1 := append_event st0 "tool_invocation_complete"
        (.obj [("tool", .str toolName), ("result", resultDump)])
      let st2 := record_tool_metric st1 toolName duration true
      (.ok resultDump, ps', st2)

/-! ## JSON parsing for `MCPClientManager._maybe_json` (mcp.py)

`json.loads` is modelled for the JSON subset the system exchanges:
null/true/false, integer numbers, strings without escape sequences, arrays
and objects, with insignificant whitespace.  Floats, exponents and string
escapes are outside the modelled subset (no claim exercises them); inputs
using them parse as `none` here.  The recursion is fuelled; two fuel units
per input character bound the nesting depth, so the fuel never runs out on
the inputs fed from `json_loads`. -/

/-- Whitespace accepted between JSON tokens. -/
def isJsonWs (c : Char) : Bool :=
  c = ' ' || c = '\t' || c = '\n' || c = '\r'

/-- Skip insignificant whitespace. -/
def skipWs (cs : List Char) : List Char :=
  cs.dropWhile isJsonWs

/-- ASCII decimal digit test. -/
def isDigitChar (c : Char) : Bool :=
  '0' ≤ c && c ≤ '9'

/-- Digits to the natural number they denote. -/
def digitsToNat (ds : List Char) : Nat :=
  ds.foldl (fun acc c => acc * 10 + (c.toNat - '0'.toNat)) 0

/-- Body of a JSON string after the opening quote (escape-free subset). -/
def parseStringBody (cs : List Char) : Option (String × List Char) :=
  let (body, rest) := cs.span (fun c => c ≠ '"' && c ≠ '\\')
  match rest with
  | '"' :: r => some (String.mk body, r)
  | _ => none

/-- A JSON integer (optional minus sign, digit run). -/
def parseNumber (cs : List Char) : Option (Json × List Char) :=
  match cs with
  | '-' :: rest =>
    let (ds, r) := rest.span isDigitChar
    if ds = [] then none else some (.num (-(digitsToNat ds : Int)), r)
  | _ =>
    let (ds, r) := cs.span isDigitChar
    if ds = [] then none else some (.num (digitsToNat ds : Int), r)

mutual

/-- One JSON value starting at the given characters. -/
def parseValue : Nat → List Char → Option (Json × List Char)
  | 0, _ => none
  | fuel + 1, cs =>
    match skipWs cs with
    | 'n' :: 'u' :: 'l' :: 'l' :: rest => some (.null, rest)
    | 't' :: 'r' :: 'u' :: 'e' :: rest => some (.bool true, rest)
    | 'f' :: 'a' :: 'l' :: 's' :: 'e' :: rest => some (.bool false, rest)
    | '"' :: rest =>
      (parseStringBody rest).map (fun p => (.str p.1, p.2))
    | '[' :: rest =>
      match skipWs rest with
      | ']' :: r => some (.arr [], r)
      | inner => (parseElems fuel inner).map (fun p => (.arr p.1, p.2))
    | '{' :: rest =>
      match skipWs rest with
      | '}' :: r => some (.obj [], r)
      | inner => (parseFields fuel inner).map (fun p => (.obj p.1, p.2))
    | other => parseNumber other

/-- The elements of a non-empty JSON array, up to and including `]`. -/
def parseElems : Nat → List Char → Option (List Json × List Char)
  | 0, _ => none
  | fuel + 1, cs =>
    (parseValue fuel cs).bind (fun p =>
      match skipWs p.2 with
      | ',' :: r => (parseElems fuel r).map (fun q => (p.1 :: q.1, q.2))
      | ']' :: r => some ([p.1], r)
      | _ => none)

/-- The fields of a non-empty JSON object, up to and including `}`. -/
def parseFields : Nat → List Char → Option (List (String × Json) × List Char)
  | 0, _ => none
  | fuel + 1, cs =>
    match skipWs cs with
    | '"' :: rest =>
      (parseStringBody rest).bind (fun kp =>
        match skipWs kp.2 with
        | ':' :: r =>
          (parseValue fuel r).bind (fun vp =>
            match skipWs vp.2 with
            | ',' :: r2 =>
              (parseFields fuel r2).map (fun q => ((kp.1, vp.1) :: q.1, q.2))
            | '}' :: r2 => some ([(kp.1, vp.1)], r2)
            | _ => none)
        | _ => none)
    | _ => none

end

/-- `json.loads` on the modelled subset: a single value with nothing but
whitespace after it. -/
def json_loads (value : String) : Option Json :=
  match parseValue (2 * value.length + 4) value.toList with
  | some (v, rest) => if skipWs rest = [] then some v else none
  | none => none

/-- `MCPClientManager._maybe_json(value)`: the parsed value when it is a
JSON object (a Python dict), otherwise `{"raw": value}` — also for valid
JSON that is not an object, matching the `isinstance(parsed, dict)` test. -/
def maybe_json (value : String) : Json :=
  match json_loads value with
  | some (Json.obj fields) => Json.obj fields
  | _ => Json.obj [("raw", Json.str value)]

/-! ## RateLimiter and MCPClientManager.invoke (mcp.py) -/

/-- `RateLimiter`: optional per-minute limit and the deque of admitted
event timestamps.  Time is the monotonic clock in whole seconds
(non-negative), so Python's `now - 60` agrees with truncated `Nat`
subtraction. -/
structure RateLimiter where
  limit : Option Nat
  events : List Nat
deriving DecidableEq, Repr

/-- `RateLimiter.allow()`: a falsy limit (absent or zero) always admits
without touching the deque; otherwise timestamps older than the sliding
60-second window are dropped from the front, and the call is admitted
(appending `now`) iff fewer than `limit` events remain. -/
def RateLimiter.allow (rl : RateLimiter) (now : Nat) : Bool × RateLimiter :=
  match rl.limit with
  | none => (true, rl)
  | some l =>
    if l = 0 then (true, rl)
    else
      let windowStart := now - 60
      let kept := rl.events.dropWhile (fun t => t < windowStart)
      if kept.length ≥ l then (false, { rl with events := kept })
      else (true, { rl with events := kept ++ [now] })

/-- Per-endpoint runtime state (`EndpointState` in mcp.py). -/
structure EndpointState where
  lastHealth : String := "unknown"
  lastLatencyMs : Option Nat := none
  lastError : Option String := none
  throttled : Bool := false
  totalInvocations : Nat := 0
deriving DecidableEq, Repr

/-- The manager's per-endpoint data for one configured, enabled endpoint:
its rate limiter and runtime state (`_limiters[name]`, `_states[name]`). -/
structure McpEndpoint where
  limiter : RateLimiter
  estate : EndpointState
deriving DecidableEq, Repr

/-- Outcome of the transport dispatch (HTTP POST / WebSocket round-trip /
stdio subprocess), supplied as an oracle: the raw response text, or the
exception message of any failure inside the `try` block (HTTP error
status, connection failure, subprocess failure, unsupported transport). -/
inductive TransportResult where
  | ok (raw : String) : TransportResult
  | failure (msg : String) : TransportResult

/-- Exceptions propagating out of `MCPClientManager.invoke` for a
configured, enabled endpoint. -/
inductive McpError where
  | rateLimitExceeded (endpoint : String) : McpError
  | transportFailure (msg : String) : McpError
deriving DecidableEq, Repr

/-- `MCPClientManager._log_event(...)` with a state manager attached: one
`mcp_invoke` audit event with the given status, optional result, optional
error (absent values serialize as JSON null). -/
def mcp_log_event (audit : List AuditEvent) (endpoint tool : String)
    (payload : Json) (status : String) (result : Option Json)
    (error : Option String) : List AuditEvent :=
  audit ++ [⟨"mcp_invoke",
    .obj [("endpoint", .str endpoint), ("tool", .str tool),
          ("payload", payload), ("status", .str status),
          ("result", result.getD .null),
          ("error", (error.map Json.str).getD .null)]⟩]

/-- `MCPClientManager.invoke(endpoint, tool, payload)` for a configured,
enabled endpoint (the unknown-endpoint `KeyError` path is upstream of the
modelled state and not exercised by the claims): consult the rate limiter
— rejection sets `throttled`, raises, logs nothing and never reaches the
transport — otherwise clear `throttled`, increment `total_invocations`
(in the source this happens *before* the dispatch), dispatch, and log an
`error` event and re-raise on failure or log an `ok` event with the
parsed result on success. -/
def MCPClientManager.invoke (ep : McpEndpoint) (now : Nat)
    (endpoint tool : String) (payload : Json) (transport : TransportResult)
    (audit : List AuditEvent) :
    Except McpError Json × McpEndpoint × List AuditEvent :=
  let step := ep.limiter.allow now
  if step.1 = false then
    (.error (.rateLimitExceeded endpoint),
      { limiter := step.2, estate := { ep.estate with throttled := true } },
      audit)
  else
    let estate := { ep.estate with
      throttled := false
      totalInvocations := ep.estate.totalInvocations + 1 }
    match transport with
    | .failure msg =>
      (.error (.transportFailure msg),
        { limiter := step.2, estate := estate },
        mcp_log_event audit endpoint tool payload "error" none (some msg))
    | .ok raw =>
      let result := maybe_json raw
      (.ok result,
        { limiter := step.2, estate := estate },
        mcp_log_event audit endpoint tool payload "ok" (some result) none)

/-! ## PlannerAgent step extraction (agents/planner_agent.py)

`_extract_steps` runs `re.findall(r"^(?:\d+[.)]|-)\s+(.*)$", raw,
flags=re.MULTILINE)`.  The pattern is modelled directly: `^` holds at the
string start and after each newline; the marker is a digit run followed by
`.` or `)`, or a lone `-`; `\s+` is a non-empty greedy whitespace run
(which may span newlines); `(.*)` captures greedily up to the next newline,
where `$` holds.  No backtracking case arises: the character ending a
maximal digit run is never `.`/`)`-ambiguous, and after a maximal
whitespace run `(.*)$` always succeeds. -/

/-- One attempt of the pattern at a line-start position: returns the
capture and the remainder after the match on success. -/
def tryMatchAt (cs : List Char) : Option (List Char × List Char) :=
  let afterMarker : Option (List Char) :=
    match cs with
    | '-' :: rest => some rest
    | _ =>
      let ds := cs.takeWhile isDigitChar
      let rest := cs.dropWhile isDigitChar
      if ds = [] then none
      else
        match rest with
        | '.' :: r => some r
        | ')' :: r => some r
        | _ => none
  match afterMarker with
  | none => none
  | some r1 =>
    let ws := r1.takeWhile isPyWs
    let r2 := r1.dropWhile isPyWs
    if ws = [] then none
    else
      let cap := r2.takeWhile (fun c => c ≠ '\n')
      let r3 := r2.dropWhile (fun c => c ≠ '\n')
      some (cap, r3)

/-- `re.findall` scan: try the pattern wherever `^` holds, advance one
character on failure, continue after the match on success.  A successful
match either exhausts the input or ends just before a newline preceded by
a non-newline capture character, so scanning continues mid-line.  Fuel:
every step consumes at least one character, so `length + 1` units
suffice. -/
def scanSteps : Nat → List Char → Bool → List (List Char)
  | 0, _, _ => []
  | _, [], _ => []
  | fuel + 1, c :: rest, atLineStart =>
    if atLineStart then
      match tryMatchAt (c :: rest) with
      | some (cap, r3) => cap :: scanSteps fuel r3 false
      | none => scanSteps fuel rest (c = '\n')
    else scanSteps fuel rest (c = '\n')

/-- The matches of the plan-step pattern in `raw`, as strings. -/
def findStepMatches (raw : String) : List String :=
  (scanSteps (raw.toList.length + 1) raw.toList true).map String.mk

/-- Python `str.strip()` with no argument: drop leading and trailing
whitespace. -/
def pyStrip (s : String) : String :=
  String.mk (((s.toList.dropWhile isPyWs).reverse.dropWhile isPyWs).reverse)

/-- `PlannerAgent._extract_steps(raw)`: the stripped non-empty matches,
or — when none remain — the single fallback step `raw.strip() or
"Review goal"`. -/
def extract_steps (raw : String) : List String :=
  let cleaned := ((findStepMatches raw).map pyStrip).filter (fun s => s ≠ "")
  if cleaned = [] then
    [if pyStrip raw = "" then "Review goal" else pyStrip raw]
  else cleaned

/-! ## AgentSession, Planner, Executor, Reviewer (agents/) -/

/-- `AgentSession`: the per-run mutable record of goal, plan,
observations, summary and progress. -/
structure AgentSession where
  goal : String
  plan_steps : List String
  observations : List String
  summary : Option String
  current_step : Nat
deriving DecidableEq, Repr

/-- `PlannerAgent.create_plan(goal)` with the model's response supplied as
an oracle: a fresh session whose steps come from `_extract_steps`
(observations empty, no summary, `current_step = 0` by the dataclass
defaults).  The "plan"/"session" checkpoint writes carry `to_dict` of this
value and add nothing the claims inspect beyond the session itself. -/
def create_plan (goal : String) (response : String) : AgentSession :=
  { goal := goal
    plan_steps := extract_steps response
    observations := []
    summary := none
    current_step := 0 }

/-- The loop body of `ExecutorAgent.execute`, iterating
`enumerate(plan_steps[start_index:], start=start_index + 1)`: per step,
append the model's response to the observations, set `current_step` to the
1-based offset and checkpoint "session".  Returns the list of session
states as checkpointed after each completed step, plus the final session.
`responses` is the model oracle indexed by the 1-based step offset. -/
def execSteps (responses : Nat → String) :
    AgentSession → List String → Nat → List AgentSession × AgentSession
  | s, [], _ => ([], s)
  | s, _step :: rest, offset =>
    let s' := { s with
      observations := s.observations ++ [responses (offset + 1)]
      current_step := offset + 1 }
    let t := execSteps responses s' rest (offset + 1)
    (s' :: t.1, t.2)

/-- `ExecutorAgent.execute(session, start_index)`: run the remaining steps
from `start_index`.  The trailing `execution_complete` event and
"execution" checkpoint mutate nothing in the session. -/
def ExecutorAgent.execute (responses : Nat → String) (s : AgentSession)
    (startIndex : Nat) : List AgentSession × AgentSession :=
  execSteps responses s (s.plan_steps.drop startIndex) startIndex

/-- `ReviewerAgent.review(session)` with the model's response as oracle:
sets `session.summary` to the response.  The PASS/REVIEW verdict payload,
its audit event and the "review"/"session" checkpoints do not alter the
session further. -/
def ReviewerAgent.review (s : AgentSession) (response : String) :
    AgentSession :=
  { s with summary := some response }

/-! ## AgentOrchestrator (loop.py) -/

/-- `resume()` with no "session" checkpoint raises RuntimeError. -/
inductive ResumeError where
  | noCheckpoint : ResumeError
deriving DecidableEq, Repr

/-- `AgentOrchestrator.run(goal)` up to the review: plan, then execute
starting at the fresh session's `current_step`.  Returns the executor's
per-step checkpoint trace and the session the reviewer receives. -/
def AgentOrchestrator.runTrace (goal plannerResponse : String)
    (responses : Nat → String) : List AgentSession × AgentSession :=
  let session := create_plan goal plannerResponse
  ExecutorAgent.execute responses session session.current_step

/-- `AgentOrchestrator.resume()` as a function of the loaded "session"
checkpoint (`AgentSession.from_dict` of the stored document; `none` for an
absent stage): fail with nothing to resume, re-plan when `plan_steps` is
empty (`session.goal or "Review goal"`), execute from `current_step` when
steps remain, review when no summary exists.  Returns the executor's
checkpoint trace — empty iff no plan step was (re-)executed — and the
final session. -/
def AgentOrchestrator.resume (plannerResponse : String)
    (responses : Nat → String) (reviewResponse : String)
    (sessionData : Option AgentSession) :
    Except ResumeError (List AgentSession × AgentSession) :=
  match sessionData with
  | none => .error .noCheckpoint
  | some s0 =>
    let s1 :=
      if s0.plan_steps = [] then
        create_plan (if s0.goal = "" then "Review goal" else s0.goal)
          plannerResponse
      else s0
    let execRes :=
      if s1.current_step < s1.plan_steps.length then
        ExecutorAgent.execute responses s1 s1.current_step
      else ([], s1)
    let s2 := execRes.2
    let s3 :=
      if s2.summary = none then ReviewerAgent.review s2 reviewResponse
      else s2
    .ok (execRes.1, s3)

/-! ## Claim theorems -/

/-- Claim C6: saving any payload under any stage and loading that stage
returns exactly that payload (in particular `{"goal":"demo"}` under
"session"); re-saving a stage overwrites the previous document rather than
appending; loading a stage that was never saved returns `none`, not an
error. -/
theorem checkpoint_roundtrip_c6 :
    (∀ (dir : CheckpointDir) (stage : String) (data : Json),
      CheckpointStore.load (CheckpointStore.save dir stage data) stage
        = some data)
    ∧ (∀ (dir : CheckpointDir) (stage : String) (d1 d2 : Json),
      CheckpointStore.save (CheckpointStore.save dir stage d1) stage d2
        = CheckpointStore.save dir stage d2)
    ∧ (∀ (dir : CheckpointDir) (stage : String),
      stage ∉ dir.map Prod.fst → CheckpointStore.load dir stage = none)
    ∧ CheckpointStore.load
        (CheckpointStore.save CheckpointStore.emptyDir "session"
          (Json.obj [("goal", Json.str "demo")])) "session"
        = some (Json.obj [("goal", Json.str "demo")]) := by
  refine ⟨?_, ?_, ?_, rfl⟩
  · intro dir stage data
    simp [CheckpointStore.load, CheckpointStore.save, List.find?]
  · intro dir stage d1 d2
    simp only [CheckpointStore.save, List.filter_cons]
    simp [List.filter_filter]
  · intro dir stage h
    simp only [CheckpointStore.load, Option.map_eq_none']
    rw [List.find?_eq_none]
    intro x hx
    simp only [decide_eq_true_eq]
    intro heq
    exact h (heq ▸ List.mem_map_of_mem Prod.fst hx)

/-- Claim C6 witness: the unsaved-stage conjunct applied at a concrete
store holding only a "plan" document. -/
theorem checkpoint_roundtrip_c6_witness :
    CheckpointStore.load [("plan", Json.num 1)] "nonexistent" = none :=
  checkpoint_roundtrip_c6.2.2.1 [("plan", Json.num 1)] "nonexistent"
    (by decide)

/-- Claim C10: every `authorize_tool` call increments the internal
tool-call counter by exactly one — also when the call raises a
`PolicyViolation`, since the counter is updated before either check and
the incremented state is what remains on the manager. -/
theorem authorize_tool_always_increments_c10 (s : PolicyState)
    (toolName : String) :
    ((authorize_tool s toolName).2).toolCalls = s.toolCalls + 1 := rfl

/-- The tools.yaml document of the C5 scenario: `budgets.max_tool_calls =
2`, no executor allowlist. -/
def budgetTwoPolicy : ToolsPolicy := { budgetsMaxToolCalls := some 2 }

/-- A freshly loaded `PolicyManager` over `budgetTwoPolicy`. -/
def budgetTwoState : PolicyState :=
  { toolsPolicy := budgetTwoPolicy, toolCalls := 0, tokenUsage := 0 }

/-- Claim C5: with `max_tool_calls = 2` and no allowlist, the first two
`authorize_tool` calls succeed, the third raises `PolicyViolation`
(budget exceeded), and after `reload()` — which resets the counter to
zero — the next call succeeds again. -/
theorem tool_budget_reset_c5 (n1 n2 n3 n4 : String) :
    (authorize_tool budgetTwoState n1).1 = .ok ()
    ∧ (authorize_tool (authorize_tool budgetTwoState n1).2 n2).1 = .ok ()
    ∧ (authorize_tool (authorize_tool
        (authorize_tool budgetTwoState n1).2 n2).2 n3).1
      = .error (.budgetExceeded 3 2 n3)
    ∧ (authorize_tool
        (PolicyState.reload
          (authorize_tool (authorize_tool
            (authorize_tool budgetTwoState n1).2 n2).2 n3).2
          budgetTwoPolicy) n4).1 = .ok () :=
  ⟨rfl, rfl, rfl, rfl⟩

/-- Claim C2, evaluated on the code: with `allowed_commands = ["git
status"]`, `check_command(["git","status"])` succeeds — but
`check_command(["git","commit"])` succeeds as well, because
`_command_allowed` falls back to accepting any command whose first token
matches the first token of some allowed entry.  The claim (and the
repository's own `test_guardrails_multiword_command`) require the second
call to fail. -/
theorem check_command_first_token_fallback_c2 :
    check_command ["git status"] true ["git", "status"] = .ok ()
    ∧ check_command ["git status"] true ["git", "commit"] = .ok () :=
  ⟨rfl, rfl⟩

/-- The C1 failing scenario: tools.yaml restricting the executor to
`workspace.read_file`, a fresh policy manager and a fresh state manager. -/
def readOnlyPolicyState : PolicyState :=
  { toolsPolicy := { executorAllowedTools := ["workspace.read_file"] }
    toolCalls := 0
    tokenUsage := 0 }

/-- Claim C1, evaluated on the code: invoking a tool the policy forbids
makes `authorize_tool` raise `PolicyViolation`, and because that call sits
before the `try` block in `ToolInvoker.invoke`, the exception propagates
with only the "start" event in the audit log — no "policy_violation"
event and no per-tool metric, whatever the tool run would have returned.
The claim (and spec §7) require the violation to be audited and a metric
recorded. -/
theorem invoker_policy_violation_unaudited_c1 (outcome : ToolRunOutcome)
    (duration : Nat) (payload : Json) :
    (ToolInvoker.invoke readOnlyPolicyState StateSlice.empty "shell_exec"
        payload outcome duration).1
      = .error (.policy (.toolNotPermitted "shell_exec"))
    ∧ ((ToolInvoker.invoke readOnlyPolicyState StateSlice.empty "shell_exec"
        payload outcome duration).2.2).events.map AuditEvent.kind
      = ["tool_invocation_start"]
    ∧ ((ToolInvoker.invoke readOnlyPolicyState StateSlice.empty "shell_exec"
        payload outcome duration).2.2).toolMetrics = [] :=
  ⟨rfl, rfl, rfl⟩

/-- An enabled endpoint with no rate limit and fresh runtime state. -/
def freshEndpoint : McpEndpoint :=
  { limiter := { limit := none, events := [] }, estate := {} }

/-- Claim C3 counterexample: on a transport failure the endpoint's
`total_invocations` does not stay unchanged — the counter was 0 before the
call and is 1 after the failed call, because the source increments it
before dispatching. -/
theorem mcp_total_invocations_on_failure_c3_cex :
    (MCPClientManager.invoke freshEndpoint 0 "svc" "list" (Json.obj [])
        (.failure "connection refused") []).1
      = .error (.transportFailure "connection refused")
    ∧ freshEndpoint.estate.totalInvocations = 0
    ∧ ((MCPClientManager.invoke freshEndpoint 0 "svc" "list" (Json.obj [])
        (.failure "connection refused") []).2.1).estate.totalInvocations
      = 1 :=
  ⟨rfl, rfl, rfl⟩

/-- Claim C3 as amended: for every call on a configured, enabled endpoint
that passes the rate limiter, `total_invocations` is incremented before
dispatch, so it counts failed dispatches too; on transport failure an
audit event with status "error" is emitted and the failure propagates to
the caller, and on success an audit event with status "ok" carrying the
parsed result is emitted. -/
theorem mcp_invoke_audit_and_counter_c3 (ep : McpEndpoint) (now : Nat)
    (endpoint tool : String) (payload : Json) (audit : List AuditEvent)
    (h : (ep.limiter.allow now).1 = true) :
    (∀ msg,
      MCPClientManager.invoke ep now endpoint tool payload (.failure msg)
          audit
        = (.error (.transportFailure msg),
           { limiter := (ep.limiter.allow now).2
             estate := { ep.estate with
               throttled := false
               totalInvocations := ep.estate.totalInvocations + 1 } },
           mcp_log_event audit endpoint tool payload "error" none (some msg)))
    ∧ (∀ raw,
      MCPClientManager.invoke ep now endpoint tool payload (.ok raw) audit
        = (.ok (maybe_json raw),
           { limiter := (ep.limiter.allow now).2
             estate := { ep.estate with
               throttled := false
               totalInvocations := ep.estate.totalInvocations + 1 } },
           mcp_log_event audit endpoint tool payload "ok"
             (some (maybe_json raw)) none)) := by
  constructor
  · intro msg
    simp [MCPClientManager.invoke, h]
  · intro raw
    simp [MCPClientManager.invoke, h]

/-- Claim C3 witness: the amended theorem applied to a fresh unlimited
endpoint, once with a failing transport and once with a succeeding one. -/
theorem mcp_invoke_audit_and_counter_c3_witness :
    (MCPClientManager.invoke freshEndpoint 7 "svc" "list" (Json.obj [])
        (.failure "boom") []
      = (.error (.transportFailure "boom"),
         { limiter := (freshEndpoint.limiter.allow 7).2
           estate := { freshEndpoint.estate with
             throttled := false
             totalInvocations := freshEndpoint.estate.totalInvocations + 1 } },
         mcp_log_event [] "svc" "list" (Json.obj []) "error" none
           (some "boom")))
    ∧ (MCPClientManager.invoke freshEndpoint 7 "svc" "list" (Json.obj [])
        (.ok "not json") []
      = (.ok (maybe_json "not json"),
         { limiter := (freshEndpoint.limiter.allow 7).2
           estate := { freshEndpoint.estate with
             throttled := false
             totalInvocations := freshEndpoint.estate.totalInvocations + 1 } },
         mcp_log_event [] "svc" "list" (Json.obj []) "ok"
           (some (maybe_json "not json")) none)) :=
  ⟨(mcp_invoke_audit_and_counter_c3 freshEndpoint 7 "svc" "list"
      (Json.obj []) [] rfl).1 "boom",
   (mcp_invoke_audit_and_counter_c3 freshEndpoint 7 "svc" "list"
      (Json.obj []) [] rfl).2 "not json"⟩

/-- An enabled endpoint with a rate limit of 1 call per minute and fresh
runtime state. -/
def oneCallEndpoint : McpEndpoint :=
  { limiter := { limit := some 1, events := [] }, estate := {} }

/-- Claim C7: on an endpoint limited to 1 call/minute, the first call
succeeds (counter 1, not throttled); a second call inside the same
60-second window fails with the rate-limit error, sets `throttled`, logs
nothing, leaves the counter unchanged, and its outcome is the same for
every transport oracle — no network call is made; a third call after the
window has elapsed succeeds again and resets `throttled`. -/
theorem rate_limit_window_c7 (t0 t1 t2 : Nat) (h01 : t1 < t0 + 60)
    (h2 : t0 + 60 < t2) (name tool : String) (payload : Json)
    (raw1 raw3 : String) (tr2 : TransportResult) :
    (MCPClientManager.invoke oneCallEndpoint t0 name tool payload
        (.ok raw1) []).1 = .ok (maybe_json raw1)
    ∧ ((MCPClientManager.invoke oneCallEndpoint t0 name tool payload
        (.ok raw1) []).2.1).estate.throttled = false
    ∧ ((MCPClientManager.invoke oneCallEndpoint t0 name tool payload
        (.ok raw1) []).2.1).estate.totalInvocations = 1
    ∧ (∀ tr : TransportResult,
      MCPClientManager.invoke
          ((MCPClientManager.invoke oneCallEndpoint t0 name tool payload
            (.ok raw1) []).2.1) t1 name tool payload tr
          ((MCPClientManager.invoke oneCallEndpoint t0 name tool payload
            (.ok raw1) []).2.2)
        = MCPClientManager.invoke
            ((MCPClientManager.invoke oneCallEndpoint t0 name tool payload
              (.ok raw1) []).2.1) t1 name tool payload tr2
            ((MCPClientManager.invoke oneCallEndpoint t0 name tool payload
              (.ok raw1) []).2.2))
    ∧ (MCPClientManager.invoke
        ((MCPClientManager.invoke oneCallEndpoint t0 name tool payload
          (.ok raw1) []).2.1) t1 name tool payload tr2
        ((MCPClientManager.invoke oneCallEndpoint t0 name tool payload
          (.ok raw1) []).2.2)).1 = .error (.rateLimitExceeded name)
    ∧ ((MCPClientManager.invoke
        ((MCPClientManager.invoke oneCallEndpoint t0 name tool payload
          (.ok raw1) []).2.1) t1 name tool payload tr2
        ((MCPClientManager.invoke oneCallEndpoint t0 name tool payload
          (.ok raw1) []).2.2)).2.1).estate.throttled = true
    ∧ ((MCPClientManager.invoke
        ((MCPClientManager.invoke oneCallEndpoint t0 name tool payload
          (.ok raw1) []).2.1) t1 name tool payload tr2
        ((MCPClientManager.invoke oneCallEndpoint t0 name tool payload
          (.ok raw1) []).2.2)).2.1).estate.totalInvocations = 1
    ∧ (MCPClientManager.invoke
        ((MCPClientManager.invoke oneCallEndpoint t0 name tool payload
          (.ok raw1) []).2.1) t1 name tool payload tr2
        ((MCPClientManager.invoke oneCallEndpoint t0 name tool payload
          (.ok raw1) []).2.2)).2.2
      = (MCPClientManager.invoke oneCallEndpoint t0 name tool payload
          (.ok raw1) []).2.2
    ∧ (MCPClientManager.invoke
        ((MCPClientManager.invoke
          ((MCPClientManager.invoke oneCallEndpoint t0 name tool payload
            (.ok raw1) []).2.1) t1 name tool payload tr2
          ((MCPClientManager.invoke oneCallEndpoint t0 name tool payload
            (.ok raw1) []).2.2)).2.1) t2 name tool payload (.ok raw3)
        []).1 = .ok (maybe_json raw3)
    ∧ ((MCPClientManager.invoke
        ((MCPClientManager.invoke
          ((MCPClientManager.invoke oneCallEndpoint t0 name tool payload
            (.ok raw1) []).2.1) t1 name tool payload tr2
          ((MCPClientManager.invoke oneCallEndpoint t0 name tool payload
            (.ok raw1) []).2.2)).2.1) t2 name tool payload (.ok raw3)
        []).2.1).estate.throttled = false := by
  have hkeep : ¬ (t0 < t1 - 60) :=
    Nat.not_lt.mpr (Nat.sub_le_of_le_add (Nat.le_of_lt h01))
  have hdrop : t0 < t2 - 60 := Nat.lt_sub_of_add_lt h2
  have hfirst :
      MCPClientManager.invoke oneCallEndpoint t0 name tool payload
          (.ok raw1) []
        = (.ok (maybe_json raw1),
           { limiter := { limit := some 1, events := [t0] }
             estate := { throttled := false, totalInvocations := 1 } },
           mcp_log_event [] name tool payload "ok"
             (some (maybe_json raw1)) none) := by
    simp [MCPClientManager.invoke, RateLimiter.allow, oneCallEndpoint,
      EndpointState.mk.injEq]
  have hsecondAllow :
      RateLimiter.allow { limit := some 1, events := [t0] } t1
        = (false, { limit := some 1, events := [t0] }) := by
    simp [RateLimiter.allow, List.dropWhile, hkeep]
  have hsecond :
      MCPClientManager.invoke
          { limiter := { limit := some 1, events := [t0] }
            estate := { throttled := false, totalInvocations := 1 } }
          t1 name tool payload tr2
          (mcp_log_event [] name tool payload "ok"
            (some (maybe_json raw1)) none)
        = (.error (.rateLimitExceeded name),
           { limiter := { limit := some 1, events := [t0] }
             estate := { throttled := true, totalInvocations := 1 } },
           mcp_log_event [] name tool payload "ok"
             (some (maybe_json raw1)) none) := by
    simp [MCPClientManager.invoke, hsecondAllow]
  have hthirdAllow :
      RateLimiter.allow { limit := some 1, events := [t0] } t2
        = (true, { limit := some 1, events := [t2] }) := by
    simp [RateLimiter.allow, List.dropWhile, hdrop]
  refine ⟨?_, ?_, ?_, ?_, ?_, ?_, ?_, ?_, ?_, ?_⟩
  · rw [hfirst]
  · rw [hfirst]
  · rw [hfirst]
  · intro tr
    rw [hfirst]
    simp only
    rw [show
      (MCPClientManager.invoke
        { limiter := { limit := some 1, events := [t0] }
          estate := { throttled := false, totalInvocations := 1 } }
        t1 name tool payload tr
        (mcp_log_event [] name tool payload "ok"
          (some (maybe_json raw1)) none))
      = (.error (.rateLimitExceeded name),
         { limiter := { limit := some 1, events := [t0] }
           estate := { throttled := true, totalInvocations := 1 } },
         mcp_log_event [] name tool payload "ok"
           (some (maybe_json raw1)) none) from by
        simp [MCPClientManager.invoke, hsecondAllow]]
    rw [hsecond]
  · rw [hfirst]; simp only; rw [hsecond]
  · rw [hfirst]; simp only; rw [hsecond]
  · rw [hfirst]; simp only; rw [hsecond]
  · rw [hfirst]; simp only; rw [hsecond]
  · rw [hfirst]; simp only; rw [hsecond]; simp only
    simp [MCPClientManager.invoke, hthirdAllow]
  · rw [hfirst]; simp only; rw [hsecond]; simp only
    simp [MCPClientManager.invoke, hthirdAllow]

/-- Claim C7 witness: the window theorem at times 0, 30 and 61 with a
concrete endpoint name and transports. -/
theorem rate_limit_window_c7_witness :
    (MCPClientManager.invoke oneCallEndpoint 0 "svc" "list" (Json.obj [])
        (.ok "{}") []).1 = .ok (maybe_json "{}")
    ∧ ((MCPClientManager.invoke oneCallEndpoint 0 "svc" "list"
        (Json.obj []) (.ok "{}") []).2.1).estate.throttled = false
    ∧ ((MCPClientManager.invoke oneCallEndpoint 0 "svc" "list"
        (Json.obj []) (.ok "{}") []).2.1).estate.totalInvocations = 1
    ∧ (∀ tr : TransportResult,
      MCPClientManager.invoke
          ((MCPClientManager.invoke oneCallEndpoint 0 "svc" "list"
            (Json.obj []) (.ok "{}") []).2.1) 30 "svc" "list"
          (Json.obj []) tr
          ((MCPClientManager.invoke oneCallEndpoint 0 "svc" "list"
            (Json.obj []) (.ok "{}") []).2.2)
        = MCPClientManager.invoke
            ((MCPClientManager.invoke oneCallEndpoint 0 "svc" "list"
              (Json.obj []) (.ok "{}") []).2.1) 30 "svc" "list"
            (Json.obj []) (.failure "unused")
            ((MCPClientManager.invoke oneCallEndpoint 0 "svc" "list"
              (Json.obj []) (.ok "{}") []).2.2))
    ∧ (MCPClientManager.invoke
        ((MCPClientManager.invoke oneCallEndpoint 0 "svc" "list"
          (Json.obj []) (.ok "{}") []).2.1) 30 "svc" "list" (Json.obj [])
        (.failure "unused")
        ((MCPClientManager.invoke oneCallEndpoint 0 "svc" "list"
          (Json.obj []) (.ok "{}") []).2.2)).1
      = .error (.rateLimitExceeded "svc")
    ∧ ((MCPClientManager.invoke
        ((MCPClientManager.invoke oneCallEndpoint 0 "svc" "list"
          (Json.obj []) (.ok "{}") []).2.1) 30 "svc" "list" (Json.obj [])
        (.failure "unused")
        ((MCPClientManager.invoke oneCallEndpoint 0 "svc" "list"
          (Json.obj []) (.ok "{}") []).2.2)).2.1).estate.throttled = true
    ∧ ((MCPClientManager.invoke
        ((MCPClientManager.invoke oneCallEndpoint 0 "svc" "list"
          (Json.obj []) (.ok "{}") []).2.1) 30 "svc" "list" (Json.obj [])
        (.failure "unused")
        ((MCPClientManager.invoke oneCallEndpoint 0 "svc" "list"
          (Json.obj []) (.ok "{}") []).2.2)).2.1).estate.totalInvocations
      = 1
    ∧ (MCPClientManager.invoke
        ((MCPClientManager.invoke oneCallEndpoint 0 "svc" "list"
          (Json.obj []) (.ok "{}") []).2.1) 30 "svc" "list" (Json.obj [])
        (.failure "unused")
        ((MCPClientManager.invoke oneCallEndpoint 0 "svc" "list"
          (Json.obj []) (.ok "{}") []).2.2)).2.2
      = (MCPClientManager.invoke oneCallEndpoint 0 "svc" "list"
          (Json.obj []) (.ok "{}") []).2.2
    ∧ (MCPClientManager.invoke
        ((MCPClientManager.invoke
          ((MCPClientManager.invoke oneCallEndpoint 0 "svc" "list"
            (Json.obj []) (.ok "{}") []).2.1) 30 "svc" "list"
          (Json.obj []) (.failure "unused")
          ((MCPClientManager.invoke oneCallEndpoint 0 "svc" "list"
            (Json.obj []) (.ok "{}") []).2.2)).2.1) 61 "svc" "list"
        (Json.obj []) (.ok "{}") []).1 = .ok (maybe_json "{}")
    ∧ ((MCPClientManager.invoke
        ((MCPClientManager.invoke
          ((MCPClientManager.invoke oneCallEndpoint 0 "svc" "list"
            (Json.obj []) (.ok "{}") []).2.1) 30 "svc" "list"
          (Json.obj []) (.failure "unused")
          ((MCPClientManager.invoke oneCallEndpoint 0 "svc" "list"
            (Json.obj []) (.ok "{}") []).2.2)).2.1) 61 "svc" "list"
        (Json.obj []) (.ok "{}") []).2.1).estate.throttled = false :=
  rate_limit_window_c7 0 30 61 (by decide) (by decide) "svc" "list"
    (Json.obj []) "{}" "{}" (.failure "unused")

/-- Claim C9 counterexample: the response "  step one  " contains no
numbered or bulleted line, yet `_extract_steps` returns the *stripped*
text — not the single-element list containing the whole response text. -/
theorem extract_steps_whole_text_c9_cex :
    findStepMatches "  step one  " = []
    ∧ extract_steps "  step one  " = ["step one"]
    ∧ extract_steps "  step one  " ≠ ["  step one  "] :=
  ⟨rfl, rfl, by decide⟩

/-- Claim C9 as amended: when the response contains no numbered or
bulleted line, `_extract_steps` returns the single-element list
containing the whitespace-stripped response text, or `["Review goal"]`
when the stripped response is empty. -/
theorem extract_steps_fallback_c9 (raw : String)
    (h : findStepMatches raw = []) :
    extract_steps raw
      = [if pyStrip raw = "" then "Review goal" else pyStrip raw] := by
  simp [extract_steps, h]

/-- Claim C9 witness: the amended fallback applied at the bullet-free
response "hello world". -/
theorem extract_steps_fallback_c9_witness :
    extract_steps "hello world"
      = [if pyStrip "hello world" = "" then "Review goal"
         else pyStrip "hello world"] :=
  extract_steps_fallback_c9 "hello world" rfl

/-- Invariant of the executor loop: every session state checkpointed by
`execSteps` keeps `current_step` within the plan and `observations`
aligned with `current_step`, provided the starting state does. -/
theorem execSteps_invariant (responses : Nat → String) :
    ∀ (remaining : List String) (s : AgentSession) (offset : Nat),
      s.current_step = offset →
      s.observations.length = offset →
      offset + remaining.length ≤ s.plan_steps.length →
      ∀ t ∈ (execSteps responses s remaining offset).1,
        t.current_step ≤ t.plan_steps.length
          ∧ t.observations.length = t.current_step
  | [], _, _, _, _, _, t, ht => by simp [execSteps] at ht
  | step :: rest, s, offset, hcur, hobs, hlen, t, ht => by
    simp only [execSteps, List.mem_cons] at ht
    simp only [List.length_cons] at hlen
    have hlen' : offset + 1 + rest.length ≤ s.plan_steps.length := by omega
    rcases ht with rfl | ht
    · constructor
      · show offset + 1 ≤ s.plan_steps.length
        omega
      · show (s.observations ++ [responses (offset + 1)]).length = offset + 1
        simp [hobs]
    · exact execSteps_invariant responses rest
        { s with
          observations := s.observations ++ [responses (offset + 1)]
          current_step := offset + 1 }
        (offset + 1) rfl (by simp [hobs]) hlen' t ht

/-- Claim C8: for every session produced by the planner and then advanced
by the executor (the fresh planner session and every state checkpointed
after a completed executor step), `current_step` never exceeds
`len(plan_steps)` and `len(observations)` equals `current_step`. -/
theorem session_invariant_c8 (goal plannerResponse : String)
    (responses : Nat → String) (t : AgentSession)
    (ht : t = create_plan goal plannerResponse
      ∨ t ∈ (AgentOrchestrator.runTrace goal plannerResponse responses).1) :
    t.current_step ≤ t.plan_steps.length
      ∧ t.observations.length = t.current_step := by
  rcases ht with rfl | ht
  · exact ⟨Nat.zero_le _, rfl⟩
  · exact execSteps_invariant responses
      ((create_plan goal plannerResponse).plan_steps.drop 0)
      (create_plan goal plannerResponse) 0 rfl rfl (by simp) t ht

/-- Claim C8 witness: the invariant at the second checkpointed state of a
two-step run. -/
theorem session_invariant_c8_witness :
    (AgentSession.mk "g" ["a", "b"] ["done", "done"] none 2).current_step
      ≤ (AgentSession.mk "g" ["a", "b"] ["done", "done"] none
          2).plan_steps.length
    ∧ (AgentSession.mk "g" ["a", "b"] ["done", "done"] none
        2).observations.length
      = (AgentSession.mk "g" ["a", "b"] ["done", "done"] none
          2).current_step :=
  session_invariant_c8 "g" "1. a\n2. b" (fun _ => "done")
    (AgentSession.mk "g" ["a", "b"] ["done", "done"] none 2)
    (Or.inr (by decide))

/-- Claim C4: (a) once a run has completed — the checkpointed session
holds a summary, `current_step` equals the number of plan steps, and the
plan is non-empty, as every planner-produced plan is (conjunct (c)) —
`resume()` re-executes no plan step and returns the session unchanged;
(b) whenever `current_step < len(plan_steps)`, `resume()` hands the
executor exactly the loaded session starting at `current_step`, whose
first completed step is step `current_step + 1` — never step one again;
(c) `_extract_steps` never yields an empty plan. -/
theorem resume_semantics_c4 (plannerResponse reviewResponse : String)
    (responses : Nat → String) (s0 : AgentSession) :
    (s0.plan_steps ≠ [] → s0.summary ≠ none →
      s0.current_step = s0.plan_steps.length →
      AgentOrchestrator.resume plannerResponse responses reviewResponse
          (some s0)
        = .ok ([], s0))
    ∧ (s0.plan_steps ≠ [] → s0.current_step < s0.plan_steps.length →
      (AgentOrchestrator.resume plannerResponse responses reviewResponse
          (some s0)).toOption.map Prod.fst
        = some (ExecutorAgent.execute responses s0 s0.current_step).1
      ∧ (ExecutorAgent.execute responses s0 s0.current_step).1.head?
        = some { s0 with
            observations :=
              s0.observations ++ [responses (s0.current_step + 1)]
            current_step := s0.current_step + 1 })
    ∧ (∀ raw, extract_steps raw ≠ []) := by
  refine ⟨?_, ?_, ?_⟩
  · intro hne hsum hdone
    simp [AgentOrchestrator.resume, hne, hsum, hdone]
  · intro hne hlt
    constructor
    · simp only [AgentOrchestrator.resume]
      rw [if_neg hne, if_pos hlt]
      rfl
    · obtain ⟨x, rest, hx⟩ :=
        List.exists_cons_of_ne_nil
          (by
            have : 0 < (s0.plan_steps.drop s0.current_step).length := by
              simpa [List.length_drop] using Nat.sub_pos_of_lt hlt
            exact List.ne_nil_of_length_pos this)
      simp [ExecutorAgent.execute, hx, execSteps]
  · intro raw
    simp only [extract_steps]
    by_cases hc :
        ((findStepMatches raw).map pyStrip).filter (fun s => s ≠ "") = []
    · rw [if_pos hc]
      exact List.cons_ne_nil _ _
    · rw [if_neg hc]
      exact hc

/-- Claim C4 witness: part (a) at a completed one-step session, part (b)
at a half-finished two-step session, part (c) at the empty response. -/
theorem resume_semantics_c4_witness :
    (AgentOrchestrator.resume "unused" (fun _ => "done") "looks good"
        (some (AgentSession.mk "g" ["a"] ["o1"] (some "sum") 1))
      = .ok ([], AgentSession.mk "g" ["a"] ["o1"] (some "sum") 1))
    ∧ ((AgentOrchestrator.resume "unused" (fun _ => "done") "looks good"
        (some (AgentSession.mk "g" ["a", "b"] ["o1"] none
          1))).toOption.map Prod.fst
      = some (ExecutorAgent.execute (fun _ => "done")
          (AgentSession.mk "g" ["a", "b"] ["o1"] none 1) 1).1
      ∧ (ExecutorAgent.execute (fun _ => "done")
          (AgentSession.mk "g" ["a", "b"] ["o1"] none 1) 1).1.head?
        = some (AgentSession.mk "g" ["a", "b"] ["o1", "done"] none 2))
    ∧ extract_steps "" ≠ [] :=
  ⟨(resume_semantics_c4 "unused" "looks good" (fun _ => "done")
      (AgentSession.mk "g" ["a"] ["o1"] (some "sum") 1)).1
    (by decide) (by decide) (by decide),
   (resume_semantics_c4 "unused" "looks good" (fun _ => "done")
      (AgentSession.mk "g" ["a", "b"] ["o1"] none 1)).2.1
    (by decide) (by decide),
   (resume_semantics_c4 "unused" "looks good" (fun _ => "done")
      (AgentSession.mk "g" ["a"] [] none 0)).2.2 ""⟩

end AgentSpec
